import Mathlib

/-!
Shallow embedding of the event bus in src/core/events.py (class EventBus).

Modelling conventions:
- Payload dicts are opaque to the bus; they are modelled as association
  lists of string fields (Data).  json.dumps is modelled by dumpObj, a
  concrete serialization; json.loads outcomes are supplied as an oracle
  (loads : String -> Option Data), none meaning the call raised.
- Redis streams are identified by name (String).  The state-mutating calls
  the bus issues (xadd, delete, xack, xgroup_create) are recorded as a
  trace of Op values; read-only calls (xread, xreadgroup) are driven by
  oracles.  Store mutations succeed unless an explicit failure oracle says
  otherwise (appendFails for publish, GroupCreateOutcome for group setup).
- uuid.uuid4() and datetime.now() are environment inputs (fresh, now).
- Time is a Nat counter; each poll attempt of request advances it by the
  attempt duration supplied by the oracle.
-/

namespace EventBusModel

/-- Opaque payload dict: a flat map of string fields. -/
abbrev Data := List (String × String)

deriving instance DecidableEq for Except

/-- Model of json.dumps on a payload dict. -/
def dumpObj (d : Data) : String :=
  "\x7b" ++ String.intercalate ", " (d.map (fun kv => "\"" ++ kv.1 ++ "\": \"" ++ kv.2 ++ "\"")) ++ "\x7d"

/-- Python dict merge of one key, as in \x7b**data, "response_stream": rs\x7d:
overwrite the key in place if present, else append it. -/
def setKey (d : Data) (k v : String) : Data :=
  if d.any (fun kv => kv.1 = k) then
    d.map (fun kv => if kv.1 = k then (k, v) else kv)
  else
    d ++ [(k, v)]

/-- Envelope appended by publish: event_id, event_type, timestamp, and the
serialized payload (field data). -/
structure Envelope where
  event_id : String
  event_type : String
  timestamp : String
  data : String
deriving DecidableEq, Repr

/-- State-mutating redis calls issued by the bus. -/
inductive Op where
  | xadd (stream : String) (env : Envelope)
  | delete (stream : String)
  | xack (stream group msgId : String)
  | xgroupCreate (stream group : String)
deriving DecidableEq, Repr

/-- Tests whether an Op is an append (xadd) attempt. -/
def Op.isXadd : Op → Bool
  | Op.xadd _ _ => true
  | _ => false

/-- EventBus._make_stream: the stream for an event type is pre ++ ":" ++ type. -/
def _make_stream (pre event_type : String) : String :=
  pre ++ ":" ++ event_type

/-- Python truthiness of correlation_id or str(uuid.uuid4()): the supplied
string when present and non-empty, the fresh uuid otherwise. -/
def pyOr (correlation_id : Option String) (fresh : String) : String :=
  match correlation_id with
  | some c => if c = "" then fresh else c
  | none => fresh

/-- Result of one publish call: what the caller sees (the raised error or
the returned event_id) and the trace of store mutations issued. -/
structure PublishOut where
  result : Except String String
  trace : List Op
deriving DecidableEq, Repr

/-- EventBus.publish: build the envelope (event_id is correlation_id or a
fresh uuid), serialize the payload, issue one xadd to the event-type
stream; on append failure log and re-raise (no retry). -/
def publish (pre event_type : String) (data : Data) (correlation_id : Option String)
    (fresh now : String) (appendFails : Bool) : PublishOut :=
  let event_id := pyOr correlation_id fresh
  let stream_name := _make_stream pre event_type
  let payload : Envelope :=
    { event_id := event_id, event_type := event_type, timestamp := now, data := dumpObj data }
  if appendFails then
    { result := Except.error ("Failed to publish event " ++ event_type)
      trace := [Op.xadd stream_name payload] }
  else
    { result := Except.ok event_id
      trace := [Op.xadd stream_name payload] }

/-- Handlers are async functions on decoded payloads; a handler either
completes or raises. -/
def Handler := Data → Except String Unit

/-- EventBus.subscribe: registration writes the handler into the dict at
the event-type key (handlers[event_type] = handler). -/
def subscribe (handlers : String → Option Handler) (event_type : String)
    (handler : Handler) : String → Option Handler :=
  fun t => if t = event_type then some handler else handlers t

/-- One poll attempt of the request loop: either the xread observed a
message (whose raw data field is returned) or it came back empty; delta
is the time the attempt consumed (block window plus sleep). -/
inductive Attempt where
  | reply (raw : String) (delta : Nat)
  | empty (delta : Nat)

/-- Duration of a poll attempt. -/
def Attempt.delta : Attempt → Nat
  | Attempt.reply _ d => d
  | Attempt.empty d => d

/-- Whether the poll attempt observed a message. -/
def Attempt.isReply : Attempt → Bool
  | Attempt.reply _ _ => true
  | Attempt.empty _ => false

/-- Outcome of the request polling loop: first message observed (with the
time it was observed), or the deadline check failed (with the elapsed
time at that check).  fuelOut is the model artifact for an execution
that would loop without time ever reaching the deadline; it is ruled
out whenever every attempt takes positive time. -/
inductive LoopOut where
  | got (raw : String) (time : Nat)
  | timedOut (time : Nat)
  | fuelOut
deriving DecidableEq, Repr

/-- The while loop of EventBus.request: while elapsed < timeout, issue a
blocking xread on the response stream; on a message, return it at the
current time; otherwise sleep and re-check the deadline. -/
def pollLoop (attempts : Nat → Attempt) (timeout : Nat) : Nat → Nat → Nat → LoopOut
  | _, _, 0 => LoopOut.fuelOut
  | i, elapsed, fuel + 1 =>
    if elapsed < timeout then
      match attempts i with
      | Attempt.reply raw d => LoopOut.got raw (elapsed + d)
      | Attempt.empty d => pollLoop attempts timeout (i + 1) (elapsed + d) fuel
    else
      LoopOut.timedOut elapsed

/-- Which branch of EventBus.request produced the return value.  This is
ghost information recording the executed path; the caller sees only the
result field. -/
inductive RPath where
  | success
  | timeout
  | error
deriving DecidableEq, Repr

/-- Result of one request call: the value returned to the caller, the path
taken, the trace of store mutations, and the elapsed time at which the
polling resolved (meaningful on the success and timeout paths). -/
structure RequestOut where
  result : Option Data
  path : RPath
  trace : List Op
  finish : Nat
deriving Repr

/-- Continuation of EventBus.request after a successful publish, on the
outcome of the polling loop.  On the first message: the response stream is
deleted and the parsed payload returned (a parse failure is an exception:
logged, None returned).  On deadline: a warning is logged and None
returned.  The finally clause issues one more delete on every path. -/
def requestAwait (response_stream : String) (pubTrace : List Op)
    (loads : String → Option Data) : LoopOut → RequestOut
  | LoopOut.got raw t =>
    match loads raw with
    | some d =>
      { result := some d, path := RPath.success
        trace := pubTrace ++ [Op.delete response_stream, Op.delete response_stream]
        finish := t }
    | none =>
      { result := none, path := RPath.error
        trace := pubTrace ++ [Op.delete response_stream, Op.delete response_stream]
        finish := t }
  | LoopOut.timedOut t =>
    { result := none, path := RPath.timeout
      trace := pubTrace ++ [Op.delete response_stream], finish := t }
  | LoopOut.fuelOut =>
    { result := none, path := RPath.error, trace := [], finish := 0 }

/-- EventBus.request: generate a correlation id, derive the response
stream, publish the request with the response stream embedded in the
payload, then poll.  A publish failure is caught (logged, None returned)
and not re-raised; the finally clause deletes the response stream on
every path. -/
def request (pre event_type : String) (data : Data) (timeout : Nat)
    (fresh now : String) (appendFails : Bool) (attempts : Nat → Attempt)
    (loads : String → Option Data) : RequestOut :=
  let correlation_id := fresh
  let response_stream := pre ++ ":response:" ++ correlation_id
  let pub := publish pre event_type (setKey data "response_stream" response_stream)
    (some correlation_id) fresh now appendFails
  match pub.result with
  | Except.error _ =>
    { result := none, path := RPath.error
      trace := pub.trace ++ [Op.delete response_stream], finish := 0 }
  | Except.ok _ =>
    requestAwait response_stream pub.trace loads (pollLoop attempts timeout 0 0 (timeout + 1))

/-- Effect of one store mutation on the set of existing streams: xadd
creates the stream if absent, delete removes it. -/
def applyOp (live : List String) (op : Op) : List String :=
  match op with
  | Op.xadd s _ => if s ∈ live then live else live ++ [s]
  | Op.delete s => live.filter (fun x => x ≠ s)
  | _ => live

/-- Streams existing after a trace of mutations runs against an initial
set of streams. -/
def appliedStreams (init : List String) (trace : List Op) : List String :=
  trace.foldl applyOp init

/-- Stream-name to event-type extraction used by the consumer loop:
stream.split(":")[-1], i.e. the suffix after the last colon (the whole
string when it has no colon). -/
def extractType (stream : String) : String :=
  String.mk ((stream.toList.reverse.takeWhile (fun c => c ≠ ':')).reverse)

/-- A delivered message: its id and the raw content of its data field
(msg_data.get("data", ...)). -/
structure Msg where
  msgId : String
  raw : String
deriving DecidableEq, Repr

/-- Per-message body of the consumer loop: decode the payload, invoke the
handler, and ack on success; if json.loads or the handler raises, log and
do not ack. -/
def processMsg (loads : String → Option Data) (stream group : String)
    (handler : Handler) (m : Msg) : List Op :=
  match loads m.raw with
  | none => []
  | some d =>
    match handler d with
    | Except.ok _ => [Op.xack stream group m.msgId]
    | Except.error _ => []

/-- The inner for loop over one delivered batch: each message is processed
in order; a failure on one message never stops the loop. -/
def dispatchMsgs (loads : String → Option Data) (stream group : String)
    (handler : Handler) : List Msg → List Op
  | [] => []
  | m :: rest =>
    processMsg loads stream group handler m ++ dispatchMsgs loads stream group handler rest

/-- Per-stream dispatch of the consumer loop: recover the event type from
the stream name, look up the handler; with no handler registered under
that name, continue without acking anything; otherwise process the batch. -/
def dispatchStream (loads : String → Option Data) (handlers : String → Option Handler)
    (group stream : String) (msgs : List Msg) : List Op :=
  match handlers (extractType stream) with
  | none => []
  | some handler => dispatchMsgs loads stream group handler msgs

/-- Outcome of one xgroup_create call: success, the BUSYGROUP error
(group already exists), or any other error. -/
inductive GroupCreateOutcome where
  | ok
  | busygroup
  | otherError (msg : String)
deriving DecidableEq, Repr

/-- One iteration of the setup loop of EventBus.start_consumer: attempt
xgroup_create on the event-type stream inside try/except-pass; the
attempt is recorded, and every outcome — success, BUSYGROUP, or any
other error — is swallowed by the bare except. -/
def ensureGroup (pre group : String) (outcome : GroupCreateOutcome) (event_type : String) : List Op :=
  match outcome with
  | GroupCreateOutcome.ok => [Op.xgroupCreate (_make_stream pre event_type) group]
  | GroupCreateOutcome.busygroup => [Op.xgroupCreate (_make_stream pre event_type) group]
  | GroupCreateOutcome.otherError _ => [Op.xgroupCreate (_make_stream pre event_type) group]

/-- Setup phase of EventBus.start_consumer: run the group-creation loop
over the registered event types, then enter the delivery loop.  Returns
the setup trace and the event types the delivery loop polls, which the
code rebuilds each iteration from handlers.keys() independently of any
setup outcome. -/
def startConsumerSetup (pre group : String) (eventTypes : List String)
    (outcome : String → GroupCreateOutcome) : List Op × List String :=
  (eventTypes.foldr (fun et acc => ensureGroup pre group (outcome et) et ++ acc) [],
   eventTypes)

/-- Every outcome of the guarded xgroup_create call leaves the same trace:
the attempt happens and nothing else, whatever the store answered. -/
lemma ensureGroup_eq (pre group : String) (o : GroupCreateOutcome) (event_type : String) :
    ensureGroup pre group o event_type = [Op.xgroupCreate (_make_stream pre event_type) group] := by
  cases o <;> rfl

/-- The setup loop leaves one xgroup_create attempt per registered type,
independently of the outcomes. -/
lemma setup_fold (pre group : String) (o : String → GroupCreateOutcome) :
    ∀ ts : List String,
      List.foldr (fun et acc => ensureGroup pre group (o et) et ++ acc) [] ts
        = ts.map (fun et => Op.xgroupCreate (_make_stream pre et) group)
  | [] => rfl
  | et :: rest => by
    have ih := setup_fold pre group o rest
    simp only [List.foldr_cons, List.map_cons]
    rw [ensureGroup_eq, ih]
    rfl

/-- C8: registering a second handler for the same event type overwrites the
first; the registry holds at most one handler per type and the second
registration is indistinguishable from having registered only it. -/
theorem subscribe_last_wins (H : String → Option Handler) (t : String) (h1 h2 : Handler) :
    subscribe (subscribe H t h1) t h2 t = some h2 ∧
    ∀ s, subscribe (subscribe H t h1) t h2 s = subscribe H t h2 s := by
  constructor
  · simp [subscribe]
  · intro s
    by_cases hs : s = t <;> simp [subscribe, hs]

/-- C9: publish issues exactly one append per call, and when the append
fails the call returns the raised error to the caller with no retry. -/
theorem publish_single_append_error_propagates (pre et : String) (data : Data)
    (cid : Option String) (fresh now : String) (b : Bool) :
    (publish pre et data cid fresh now b).trace
      = [Op.xadd (_make_stream pre et) ⟨pyOr cid fresh, et, now, dumpObj data⟩] ∧
    (publish pre et data cid fresh now true).result
      = Except.error ("Failed to publish event " ++ et) := by
  cases b <;> exact ⟨rfl, rfl⟩

/-- C4 counterexample: with the supplied correlation_id "" (provided but
falsy), publish uses the fresh uuid as event_id, not the supplied id. -/
theorem publish_empty_correlation_id_ignored :
    (publish "agent:stream" "evt" [] (some "") "11111111-2222" "ts" false).result
      = Except.ok "11111111-2222" ∧
    (publish "agent:stream" "evt" [] (some "") "11111111-2222" "ts" false).result
      ≠ Except.ok "" := by
  exact ⟨rfl, by decide⟩

/-- C4 amended: publish appends to the stream pre:event_type exactly one
envelope carrying the serialized payload, and returns as event_id the
supplied correlation_id when it is present and non-empty (Python
truthiness), the freshly generated id otherwise. -/
theorem publish_envelope_and_event_id (pre et : String) (data : Data)
    (cid : Option String) (fresh now : String) :
    (publish pre et data cid fresh now false).result = Except.ok (pyOr cid fresh) ∧
    (publish pre et data cid fresh now false).trace
      = [Op.xadd (_make_stream pre et) ⟨pyOr cid fresh, et, now, dumpObj data⟩] ∧
    (∀ c, pyOr (some c) fresh = if c = "" then fresh else c) ∧
    pyOr none fresh = fresh := by
  exact ⟨rfl, rfl, fun c => rfl, rfl⟩

/-- C3: a delivered message is acked exactly when its payload decoded and
its handler completed without raising; on decode or handler failure no ack
is issued and the loop goes on to the next message. -/
theorem ack_iff_handler_success (loads : String → Option Data) (stream group : String)
    (handler : Handler) (m : Msg) :
    (processMsg loads stream group handler m = [Op.xack stream group m.msgId]
      ↔ ∃ d, loads m.raw = some d ∧ handler d = Except.ok ()) ∧
    (processMsg loads stream group handler m = []
      ↔ ¬ ∃ d, loads m.raw = some d ∧ handler d = Except.ok ()) ∧
    ∀ rest, dispatchMsgs loads stream group handler (m :: rest)
      = processMsg loads stream group handler m ++ dispatchMsgs loads stream group handler rest := by
  refine ⟨?_, ?_, fun rest => rfl⟩ <;>
  · unfold processMsg
    rcases hld : loads m.raw with _ | d
    · simp
    · rcases hh : handler d with e | u
      · simp [hh]
      · cases u
        simp [hh]

/-- C6: a delivered batch whose stream maps to no registered handler is
skipped entirely: no message is acked, so all of them stay pending. -/
theorem unregistered_type_skipped (loads : String → Option Data)
    (handlers : String → Option Handler) (group stream : String) (msgs : List Msg)
    (h : handlers (extractType stream) = none) :
    dispatchStream loads handlers group stream msgs = [] := by
  unfold dispatchStream
  rw [h]

/-- Witness for C6 at a concrete batch with an empty registry. -/
theorem unregistered_type_skipped_witness :
    (fun _ => (none : Option Handler)) (extractType "agent:stream:job") = none ∧
    dispatchStream (fun _ => none) (fun _ => none) "agent-group" "agent:stream:job"
      [⟨"1-0", "x"⟩] = [] :=
  ⟨rfl, unregistered_type_skipped _ _ _ _ _ rfl⟩

/-- C2 counterexample: with a group creation that fails for a reason other
than BUSYGROUP, the event type is still included in the delivery loop; the
bare except swallows the error instead of propagating it or skipping the
type. -/
theorem group_setup_error_not_skipped :
    (fun _ => GroupCreateOutcome.otherError "NOPERM") "job"
      = GroupCreateOutcome.otherError "NOPERM" ∧
    "job" ∈ (startConsumerSetup "agent:stream" "agent-group" ["job"]
      (fun _ => GroupCreateOutcome.otherError "NOPERM")).2 := by
  exact ⟨rfl, by decide⟩

/-- C2 amended: group creation is attempted exactly once per registered
event type, every outcome (success, already-exists, or any other error) is
swallowed alike, and the delivery loop polls every registered type
regardless of those outcomes. -/
theorem group_setup_outcome_ignored (pre group : String) (eventTypes : List String)
    (o1 o2 : String → GroupCreateOutcome) :
    startConsumerSetup pre group eventTypes o1 = startConsumerSetup pre group eventTypes o2 ∧
    (startConsumerSetup pre group eventTypes o1).2 = eventTypes ∧
    (startConsumerSetup pre group eventTypes o1).1
      = eventTypes.map (fun et => Op.xgroupCreate (_make_stream pre et) group) := by
  refine ⟨?_, rfl, ?_⟩
  · unfold startConsumerSetup
    rw [setup_fold pre group o1 eventTypes, setup_fold pre group o2 eventTypes]
  · unfold startConsumerSetup
    exact setup_fold pre group o1 eventTypes

/-- Characters before the first colon are all kept, and the take stops at
that colon. -/
lemma takeWhile_to_colon (l rest : List Char) (h : ':' ∉ l) :
    (l ++ ':' :: rest).takeWhile (fun c => c ≠ ':') = l := by
  induction l with
  | nil =>
    exact List.takeWhile_cons_of_neg (by simp)
  | cons c cs ih =>
    have hc : c ≠ ':' := by
      intro hc
      exact h (by simp [hc])
    have hcs : ':' ∉ cs := fun hm => h (List.mem_cons_of_mem _ hm)
    rw [List.cons_append, List.takeWhile_cons_of_pos (by simp [hc]), ih hcs]

/-- When the first block already holds a colon, appending more characters
after it does not change the take. -/
lemma takeWhile_stops_in_first (l1 l2 : List Char) (h : ':' ∈ l1) :
    (l1 ++ l2).takeWhile (fun c => c ≠ ':') = l1.takeWhile (fun c => c ≠ ':') := by
  induction l1 with
  | nil => cases h
  | cons c cs ih =>
    by_cases hc : c = ':'
    · subst hc
      rw [List.cons_append, List.takeWhile_cons_of_neg (by simp),
        List.takeWhile_cons_of_neg (by simp)]
    · have hcs : ':' ∈ cs := by
        rcases List.mem_cons.mp h with h1 | h2
        · exact absurd h1.symm hc
        · exact h2
      rw [List.cons_append, List.takeWhile_cons_of_pos (by simp [hc]),
        List.takeWhile_cons_of_pos (by simp [hc]), ih hcs]

/-- Taking up to a colon that is present strictly shortens the list. -/
lemma takeWhile_length_lt (l : List Char) (h : ':' ∈ l) :
    (l.takeWhile (fun c => c ≠ ':')).length < l.length := by
  induction l with
  | nil => cases h
  | cons c cs ih =>
    by_cases hc : c = ':'
    · subst hc
      rw [List.takeWhile_cons_of_neg (by simp)]
      simp
    · have hcs : ':' ∈ cs := by
        rcases List.mem_cons.mp h with h1 | h2
        · exact absurd h1.symm hc
        · exact h2
      rw [List.takeWhile_cons_of_pos (by simp [hc])]
      simpa using Nat.succ_lt_succ (ih hcs)

/-- Character list of a stream name built by _make_stream. -/
lemma make_stream_toList (pre t : String) :
    (_make_stream pre t).toList = pre.toList ++ ':' :: t.toList := by
  show (_make_stream pre t).data = pre.data ++ ':' :: t.data
  unfold _make_stream
  rw [String.data_append, String.data_append, List.append_assoc]
  rfl

/-- For an event type with no colon, the last segment of its stream name
is the event type itself. -/
lemma extract_make_no_colon (pre t : String) (h : ':' ∉ t.toList) :
    extractType (_make_stream pre t) = t := by
  apply String.ext
  show ((_make_stream pre t).toList.reverse.takeWhile (fun c => c ≠ ':')).reverse = t.data
  rw [make_stream_toList, List.reverse_append, List.reverse_cons, List.append_assoc,
    List.singleton_append, takeWhile_to_colon _ _ (by simpa using h), List.reverse_reverse]
  rfl

/-- For an event type holding a colon, the last segment of its stream name
is strictly shorter than the event type, hence different from it. -/
lemma extract_make_colon_ne (pre t : String) (h : ':' ∈ t.toList) :
    extractType (_make_stream pre t) ≠ t := by
  have hdata : (extractType (_make_stream pre t)).data
      = (t.toList.reverse.takeWhile (fun c => c ≠ ':')).reverse := by
    show ((_make_stream pre t).toList.reverse.takeWhile (fun c => c ≠ ':')).reverse = _
    rw [make_stream_toList, List.reverse_append, List.reverse_cons, List.append_assoc,
      List.singleton_append, takeWhile_stops_in_first _ _ (by simpa using h)]
  intro he
  have hlen : (extractType (_make_stream pre t)).data.length < t.data.length := by
    rw [hdata, List.length_reverse]
    calc (t.toList.reverse.takeWhile (fun c => c ≠ ':')).length
        < t.toList.reverse.length := takeWhile_length_lt _ (by simpa using h)
      _ = t.data.length := by rw [List.length_reverse]; rfl
  rw [he] at hlen
  exact Nat.lt_irrefl _ hlen

/-- C10: the consumer recovers the event type as the suffix of the stream
name after its last colon, so a colon-free event type round-trips the
stream naming and its batch is dispatched to its registered handler, while
an event type holding a colon is extracted to a different name: with that
type as the sole registration, nothing is dispatched and nothing is acked,
so its messages stay pending. -/
theorem stream_name_roundtrip (pre t : String) :
    (':' ∉ t.toList →
      extractType (_make_stream pre t) = t ∧
      ∀ H h loads group msgs,
        dispatchStream loads (subscribe H t h) group (_make_stream pre t) msgs
          = dispatchMsgs loads (_make_stream pre t) group h msgs) ∧
    (':' ∈ t.toList →
      extractType (_make_stream pre t) ≠ t ∧
      ∀ h loads group msgs,
        dispatchStream loads (subscribe (fun _ => none) t h) group (_make_stream pre t) msgs
          = []) := by
  constructor
  · intro h
    refine ⟨extract_make_no_colon pre t h, ?_⟩
    intro H hh loads group msgs
    unfold dispatchStream subscribe
    rw [if_pos (extract_make_no_colon pre t h)]
  · intro h
    refine ⟨extract_make_colon_ne pre t h, ?_⟩
    intro hh loads group msgs
    unfold dispatchStream subscribe
    rw [if_neg (extract_make_colon_ne pre t h)]

/-- Witness for C10 at a colon-free and a colon-holding event type. -/
theorem stream_name_roundtrip_witness :
    extractType (_make_stream "agent:stream" "job") = "job" ∧
    extractType (_make_stream "agent:stream" "a:b") ≠ "a:b" :=
  ⟨((stream_name_roundtrip "agent:stream" "job").1 (by decide)).1,
   ((stream_name_roundtrip "agent:stream" "a:b").2 (by decide)).1⟩

/-- The envelope request publishes: the payload extended with the
response-stream field, tagged with the pre-chosen correlation id. -/
def requestEnvelope (pre event_type : String) (data : Data) (fresh now : String) : Envelope :=
  { event_id := pyOr (some fresh) fresh
    event_type := event_type
    timestamp := now
    data := dumpObj (setKey data "response_stream" (pre ++ ":response:" ++ fresh)) }

/-- A request whose publish succeeds continues into the polling loop. -/
lemma request_ok (pre et : String) (data : Data) (T : Nat) (fresh now : String)
    (attempts : Nat → Attempt) (loads : String → Option Data) :
    request pre et data T fresh now false attempts loads
      = requestAwait (pre ++ ":response:" ++ fresh)
          [Op.xadd (_make_stream pre et) (requestEnvelope pre et data fresh now)]
          loads (pollLoop attempts T 0 0 (T + 1)) :=
  rfl

/-- A request whose publish raises takes the except branch: None is
returned at once and the finally clause deletes the response stream. -/
lemma request_err (pre et : String) (data : Data) (T : Nat) (fresh now : String)
    (attempts : Nat → Attempt) (loads : String → Option Data) :
    request pre et data T fresh now true attempts loads
      = { result := none, path := RPath.error
          trace := [Op.xadd (_make_stream pre et) (requestEnvelope pre et data fresh now),
            Op.delete (pre ++ ":response:" ++ fresh)]
          finish := 0 } :=
  rfl

/-- With positive attempt durations the polling loop always resolves
within the fuel bound. -/
lemma pollLoop_ne_fuelOut (attempts : Nat → Attempt) (T : Nat)
    (hδ : ∀ i, 1 ≤ (attempts i).delta) :
    ∀ fuel i elapsed, T - elapsed < fuel →
      pollLoop attempts T i elapsed fuel ≠ LoopOut.fuelOut := by
  intro fuel
  induction fuel with
  | zero =>
    intro i elapsed hlt
    omega
  | succ fuel ih =>
    intro i elapsed hlt
    by_cases he : elapsed < T
    · cases hat : attempts i with
      | reply raw d =>
        simp [pollLoop, if_pos he, hat]
      | empty d =>
        have hd : 1 ≤ d := by
          have := hδ i
          rwa [hat] at this
        have hrec := ih (i + 1) (elapsed + d) (by omega)
        simpa [pollLoop, if_pos he, hat] using hrec
    · simp [pollLoop, if_neg he]

/-- With no reply ever observed and attempt durations in the interval
from 1 to P, the loop resolves to a timeout at a time in [T, T + P). -/
lemma pollLoop_timedOut (attempts : Nat → Attempt) (T P : Nat)
    (hrep : ∀ i, (attempts i).isReply = false)
    (hlo : ∀ i, 1 ≤ (attempts i).delta)
    (hhi : ∀ i, (attempts i).delta ≤ P) :
    ∀ fuel i elapsed, T - elapsed < fuel → elapsed < T + P →
      ∃ tm, pollLoop attempts T i elapsed fuel = LoopOut.timedOut tm ∧
        T ≤ tm ∧ tm < T + P := by
  intro fuel
  induction fuel with
  | zero =>
    intro i elapsed h1 h2
    omega
  | succ fuel ih =>
    intro i elapsed h1 h2
    by_cases he : elapsed < T
    · cases hat : attempts i with
      | reply raw d =>
        have := hrep i
        rw [hat] at this
        exact absurd this (by simp [Attempt.isReply])
      | empty d =>
        have hd1 : 1 ≤ d := by
          have := hlo i
          rwa [hat] at this
        have hd2 : d ≤ P := by
          have := hhi i
          rwa [hat] at this
        have hrec := ih (i + 1) (elapsed + d) (by omega) (by omega)
        simpa [pollLoop, if_pos he, hat] using hrec
    · refine ⟨elapsed, ?_, Nat.le_of_not_lt he, h2⟩
      simp [pollLoop, if_neg he]

/-- C7: a request that never observes a reply resolves as a timeout no
earlier than the deadline T and no later than T plus one poll interval P,
where every poll attempt takes positive time bounded by P. -/
theorem request_timeout_window (pre et : String) (data : Data) (T P : Nat)
    (fresh now : String) (attempts : Nat → Attempt) (loads : String → Option Data)
    (hrep : ∀ i, (attempts i).isReply = false)
    (hlo : ∀ i, 1 ≤ (attempts i).delta)
    (hhi : ∀ i, (attempts i).delta ≤ P) :
    (request pre et data T fresh now false attempts loads).path = RPath.timeout ∧
    T ≤ (request pre et data T fresh now false attempts loads).finish ∧
    (request pre et data T fresh now false attempts loads).finish ≤ T + P := by
  have hP : 1 ≤ P := le_trans (hlo 0) (hhi 0)
  obtain ⟨tm, hpoll, h1, h2⟩ :=
    pollLoop_timedOut attempts T P hrep hlo hhi (T + 1) 0 0 (by omega) (by omega)
  rw [request_ok, hpoll]
  exact ⟨rfl, h1, by simpa [requestAwait] using Nat.le_of_lt h2⟩

/-- Witness for C7 at a concrete run with poll interval 2 and deadline 5. -/
theorem request_timeout_window_witness :
    (request "agent:stream" "job" [] 5 "u1" "ts" false (fun _ => Attempt.empty 2)
      (fun _ => some [])).path = RPath.timeout ∧
    5 ≤ (request "agent:stream" "job" [] 5 "u1" "ts" false (fun _ => Attempt.empty 2)
      (fun _ => some [])).finish ∧
    (request "agent:stream" "job" [] 5 "u1" "ts" false (fun _ => Attempt.empty 2)
      (fun _ => some [])).finish ≤ 5 + 2 :=
  request_timeout_window "agent:stream" "job" [] 5 2 "u1" "ts" (fun _ => Attempt.empty 2)
    (fun _ => some []) (fun _ => rfl) (fun _ => Nat.le_succ 1) (fun _ => Nat.le_refl 2)

/-- On every terminating path of request its trace ends with a delete of
the response stream (the finally clause). -/
lemma request_trace_ends_delete (pre et : String) (data : Data) (T : Nat)
    (fresh now : String) (b : Bool) (attempts : Nat → Attempt)
    (loads : String → Option Data) (hδ : ∀ i, 1 ≤ (attempts i).delta) :
    ∃ pfx, (request pre et data T fresh now b attempts loads).trace
      = pfx ++ [Op.delete (pre ++ ":response:" ++ fresh)] := by
  cases b
  case false =>
    have hfuel := pollLoop_ne_fuelOut attempts T hδ (T + 1) 0 0 (by omega)
    rw [request_ok]
    cases hp : pollLoop attempts T 0 0 (T + 1) with
    | got raw t =>
      rcases hl : loads raw with _ | d <;>
      · refine ⟨[Op.xadd (_make_stream pre et) (requestEnvelope pre et data fresh now),
          Op.delete (pre ++ ":response:" ++ fresh)], ?_⟩
        simp [requestAwait, hl]
    | timedOut t =>
      exact ⟨[Op.xadd (_make_stream pre et) (requestEnvelope pre et data fresh now)],
        by simp [requestAwait]⟩
    | fuelOut => exact absurd hp hfuel
  case true =>
    exact ⟨[Op.xadd (_make_stream pre et) (requestEnvelope pre et data fresh now)],
      by rw [request_err]; rfl⟩

/-- A trace ending with a delete of a stream leaves that stream absent,
whatever ran before and whatever streams existed initially. -/
lemma not_mem_appliedStreams_ends_delete (init : List String) (pfx : List Op) (s : String) :
    s ∉ appliedStreams init (pfx ++ [Op.delete s]) := by
  unfold appliedStreams
  rw [List.foldl_append]
  simp [applyOp, List.mem_filter]

/-- C5: after a request call returns — reply consumed, deadline elapsed,
or an exception swallowed — the per-call response stream is absent from
the store, for any initial set of streams. -/
theorem response_stream_absent_after_request (pre et : String) (data : Data) (T : Nat)
    (fresh now : String) (b : Bool) (attempts : Nat → Attempt)
    (loads : String → Option Data) (init : List String)
    (hδ : ∀ i, 1 ≤ (attempts i).delta) :
    (pre ++ ":response:" ++ fresh) ∉
      appliedStreams init (request pre et data T fresh now b attempts loads).trace := by
  obtain ⟨pfx, hpfx⟩ :=
    request_trace_ends_delete pre et data T fresh now b attempts loads hδ
  rw [hpfx]
  exact not_mem_appliedStreams_ends_delete init pfx _

/-- Witness for C5: a concrete timed-out request against a store that
started with the response stream present. -/
theorem response_stream_absent_after_request_witness :
    (∀ i : Nat, 1 ≤ ((fun _ : Nat => Attempt.empty 1) i).delta) ∧
    ("agent:stream" ++ ":response:" ++ "u1") ∉
      appliedStreams ["agent:stream" ++ ":response:" ++ "u1"]
        (request "agent:stream" "job" [] 2 "u1" "ts" false (fun _ => Attempt.empty 1)
          (fun _ => some [])).trace :=
  ⟨fun _ => Nat.le_refl 1,
   response_stream_absent_after_request "agent:stream" "job" [] 2 "u1" "ts" false
     (fun _ => Attempt.empty 1) (fun _ => some [])
     ["agent:stream" ++ ":response:" ++ "u1"] (fun _ => Nat.le_refl 1)⟩

/-- C1 counterexample: a run where publish raises and a run that times out
waiting return the same caller-visible value None; only the ghost path
field separates them, so the caller cannot tell a timeout from a failure,
and the failure is swallowed rather than surfaced. -/
theorem request_timeout_error_indistinguishable :
    (request "agent:stream" "job" [] 2 "u1" "ts" true (fun _ => Attempt.empty 1)
      (fun _ => some [])).path = RPath.error ∧
    (request "agent:stream" "job" [] 2 "u1" "ts" false (fun _ => Attempt.empty 1)
      (fun _ => some [])).path = RPath.timeout ∧
    (request "agent:stream" "job" [] 2 "u1" "ts" true (fun _ => Attempt.empty 1)
      (fun _ => some [])).result
      = (request "agent:stream" "job" [] 2 "u1" "ts" false (fun _ => Attempt.empty 1)
      (fun _ => some [])).result := by
  refine ⟨rfl, ?_, ?_⟩ <;> rfl

/-- C1 amended: request surfaces nothing: every path other than a consumed
reply — the deadline elapsing as well as any underlying failure (publish
raising, or the reply failing to parse) — returns the same value None to
the caller. -/
theorem request_nonsuccess_returns_none (pre et : String) (data : Data) (T : Nat)
    (fresh now : String) (b : Bool) (attempts : Nat → Attempt)
    (loads : String → Option Data)
    (h : (request pre et data T fresh now b attempts loads).path ≠ RPath.success) :
    (request pre et data T fresh now b attempts loads).result = none := by
  cases b
  case false =>
    rw [request_ok] at h ⊢
    cases hp : pollLoop attempts T 0 0 (T + 1) with
    | got raw t =>
      rw [hp] at h
      rcases hl : loads raw with _ | d
      · simp [requestAwait, hl]
      · exact absurd (by simp [requestAwait, hl]) h
    | timedOut t => rfl
    | fuelOut => rfl
  case true =>
    rw [request_err]

/-- Witness for C1 amended at the concrete failing-publish run. -/
theorem request_nonsuccess_returns_none_witness :
    (request "agent:stream" "job" [] 2 "u1" "ts" true (fun _ => Attempt.empty 1)
      (fun _ => some [("k", "v")])).path ≠ RPath.success ∧
    (request "agent:stream" "job" [] 2 "u1" "ts" true (fun _ => Attempt.empty 1)
      (fun _ => some [("k", "v")])).result = none :=
  ⟨by decide,
   request_nonsuccess_returns_none "agent:stream" "job" [] 2 "u1" "ts" true
     (fun _ => Attempt.empty 1) (fun _ => some [("k", "v")]) (by decide)⟩

end EventBusModel
